import Mathlib

/-!
# Verification of the mesh-router-tunnel control plane

A shallow embedding of the mesh-router-tunnel source in Lean 4, together with
theorems checking the natural-language specification against it.

Conventions of the embedding:
* JavaScript strings are Lean `String`s; JS falsiness of a string (`!s`) is
  modelled as `s = ""` (a missing/`undefined` destructured field is also
  modelled as `""`, which agrees with the truthiness checks the source makes).
* `string.split(sep)` is modelled by `jsSplit`, which reproduces the JS
  single-character-separator semantics (in particular `"".split(",") = [""]`).
* Asynchronous fallible operations (shelling out to `curl`, `wg-quick`,
  `fs` writes, `axios.get`, `JSON.parse`) are modelled by `Except String α`
  oracles passed in as arguments; a JS `throw` is `Except.error`, and a
  `try`/`catch` in the source becomes a `match` on the oracle value.
* Stateful classes (`VPNManager`) become explicit state passing on a
  `VPNState` value.
-/

deriving instance DecidableEq for Except

/-! ## JS string primitives -/

/-- JS `String.prototype.split` with a one-character separator, on the
underlying character list.  Mirrors JS semantics: splitting the empty string
yields `[[]]` (JS `"".split(",") = [""]`), and a trailing separator yields a
trailing empty field. -/
def jsSplitCharList (sep : Char) : List Char → List (List Char)
  | [] => [[]]
  | c :: cs =>
    if c = sep then
      [] :: jsSplitCharList sep cs
    else
      match jsSplitCharList sep cs with
      | [] => [[c]]
      | r :: rs => (c :: r) :: rs

/-- JS `s.split(sep)` for a one-character separator. -/
def jsSplit (sep : Char) (s : String) : List String :=
  (jsSplitCharList sep s.data).map String.mk

/-- JS `s.startsWith(p)`. -/
def jsStartsWith (s p : String) : Bool :=
  p.data.isPrefixOf s.data

/-- JS `s.endsWith(p)`. -/
def jsEndsWith (s p : String) : Bool :=
  p.data.isSuffixOf s.data

/-- JS `s.replaceAll("-", ".")` as used by the name-resolution endpoint. -/
def replaceDashDot (s : String) : String :=
  String.mk (s.data.map (fun c => if c = '-' then '.' else c))

/-! ## Environment configuration (`EnvConfig.ts`)

The repository carries two revisions of `EnvConfig.ts`; this structure is the
union of the fields the embedded functions consult.  An unset string variable
is `""` (matching the `|| ''` defaults in the source). -/

structure EnvConfig where
  BACKEND_URL : String
  ROUTE_PRIORITY : Nat
  ROUTE_REFRESH_INTERVAL : Nat
  HEALTH_CHECK_PATH : String
  HEALTH_CHECK_HOST : String
  PROVIDER_ROUTE_IP : String
  PROVIDER_ROUTE_PORT : Nat
  PROVIDER_RETRY_INTERVAL : Nat
deriving DecidableEq, Repr

/-- `HealthCheckConfig` from `EnvConfig.ts`. -/
structure HealthCheckConfig where
  path : String
  host : Option String
deriving DecidableEq, Repr

/-- `getHealthCheckConfig` from `EnvConfig.ts`: `undefined` unless a health
check path is configured; the `host` member is present only when
`HEALTH_CHECK_HOST` is non-empty. -/
def getHealthCheckConfig (cfg : EnvConfig) : Option HealthCheckConfig :=
  if cfg.HEALTH_CHECK_PATH = "" then
    none
  else
    some { path := cfg.HEALTH_CHECK_PATH,
           host := if cfg.HEALTH_CHECK_HOST = "" then none else some cfg.HEALTH_CHECK_HOST }

/-- `ProviderConfig` from `EnvConfig.ts` (v2 revision). -/
structure ProviderConfig where
  backendUrl : String
  userId : String
  signature : String
deriving DecidableEq, Repr

/-- `parseProvider` from `EnvConfig.ts` (v2 revision): split the `PROVIDER`
string `<backend_url>,<userid>,<signature>` on commas, require all three
fields non-empty and the URL to start with `http`; throw otherwise.  A JS
destructuring of a too-short array gives `undefined`, which the truthiness
check treats like `""`; both are modelled by the `getD _ ""` default. -/
def parseProvider (providerString : String) : Except String ProviderConfig :=
  if providerString = "" then
    .error "PROVIDER environment variable is required"
  else
    let parts := jsSplit ',' providerString
    let backendUrl := parts.getD 0 ""
    let userId := parts.getD 1 ""
    let signature := parts.getD 2 ""
    if backendUrl = "" ∨ userId = "" ∨ signature = "" then
      .error "Invalid PROVIDER format. Expected: <backend_url>,<userid>,<signature>"
    else if jsStartsWith backendUrl "http" = false then
      .error "PROVIDER backend_url must start with http:// or https://"
    else
      .ok { backendUrl := backendUrl, userId := userId, signature := signature }

/-! ## Route registrar (`RouteRegistrar.ts`, v2 revision, lines 196-360) -/

/-- `ProviderInfo` from `RouteRegistrar.ts`. -/
structure ProviderInfo where
  providerUrl : String
  userId : String
  signature : String
deriving DecidableEq, Repr

/-- `parseProviderString` from `RouteRegistrar.ts`:
`const [providerUrl, userId = '', signature = ''] = providerString.split(',')`. -/
def parseProviderString (providerString : String) : ProviderInfo :=
  let parts := jsSplit ',' providerString
  { providerUrl := parts.getD 0 "", userId := parts.getD 1 "", signature := parts.getD 2 "" }

/-- `Route` from `RouteRegistrar.ts`.  Note: the interface has `ip`, `port`,
`priority` and an optional `healthCheck`, and nothing else — in particular no
`scheme` and no `source` member. -/
structure Route where
  ip : String
  port : Nat
  priority : Nat
  healthCheck : Option HealthCheckConfig
deriving DecidableEq, Repr

/-- `RouteRegistrationResult` from `RouteRegistrar.ts`. -/
structure RouteRegistrationResult where
  success : Bool
  message : String
  routes : Option (List Route)
  domain : Option String
  error : Option String
deriving DecidableEq, Repr

/-- The JSON object a well-formed backend reply may carry
(`response.error / .message / .routes / .domain` in the source). -/
structure BackendResponse where
  error : Option String
  message : Option String
  routes : Option (List Route)
  domain : Option String
deriving DecidableEq, Repr

/-- The one HTTP POST `registerTunnelRoute` can issue: the target is
`<backendUrl>/router/api/routes/<userId>/<signature>` and the JSON body is
`{routes: routes}`. -/
structure PostedRequest where
  backendUrl : String
  userId : String
  signature : String
  routes : List Route
deriving DecidableEq, Repr

/-- Result of a `registerTunnelRoute` call: the returned
`RouteRegistrationResult` plus the request that was POSTed to the backend
(`none` when the function returned without contacting the backend). -/
structure TunnelRegOutcome where
  result : RouteRegistrationResult
  posted : Option PostedRequest
deriving DecidableEq, Repr

/-- `registerTunnelRoute` from `RouteRegistrar.ts` (v2 revision, three-argument
form).  `transport` is the combined outcome of the `curl` exec and the
`JSON.parse` of its stdout; `Except.error` covers both failure modes, and the
source's `catch` turns it into a `success: false` result.  The function never
throws: every path produces a `TunnelRegOutcome`. -/
def registerTunnelRoute (cfg : EnvConfig) (providerString : String)
    (tunnelPort : Nat) (routeIp : String)
    (transport : Except String BackendResponse) : TunnelRegOutcome :=
  if cfg.BACKEND_URL = "" then
    { result := { success := true,
                  message := "Route registration skipped (no BACKEND_URL)",
                  routes := none, domain := none, error := none },
      posted := none }
  else
    let p := parseProviderString providerString
    if p.userId = "" ∨ p.signature = "" then
      { result := { success := false,
                    message := "Route registration failed",
                    routes := none, domain := none,
                    error := some "Missing userId or signature in provider string" },
        posted := none }
    else
      let route : Route :=
        { ip := routeIp, port := tunnelPort, priority := cfg.ROUTE_PRIORITY,
          healthCheck := getHealthCheckConfig cfg }
      let req : PostedRequest :=
        { backendUrl := cfg.BACKEND_URL, userId := p.userId, signature := p.signature,
          routes := [route] }
      match transport with
      | .error msg =>
        { result := { success := false,
                      message := "Route registration request failed",
                      routes := none, domain := none, error := some msg },
          posted := some req }
      | .ok response =>
        match response.error with
        | some e =>
          { result := { success := false,
                        message := "Route registration failed",
                        routes := none, domain := none, error := some e },
            posted := some req }
        | none =>
          { result := { success := true,
                        message := response.message.getD "Route registered successfully",
                        routes := response.routes, domain := response.domain, error := none },
            posted := some req }

/-! ## Provider side: IP pool, peer table, VPN manager (`VPNManager.ts`) -/

/-- `Meta` from `VPNManager.ts`. -/
structure Meta where
  name : String
deriving DecidableEq, Repr

/-- `Peer` from `VPNManager.ts`. -/
structure Peer where
  meta : Meta
  publicKey : String
  ip : String
deriving DecidableEq, Repr

/-- Modelled from the spec: the IP Pool (`IpManager`, component C1).  The class
`IpManager` is imported by `VPNManager.ts` from `../lib/IpManager.js` but its
source file is not part of the repository snapshot.  Per the spec, its state is
"the CIDR `S` and the set of currently leased addresses"; `hosts` lists the
host addresses of `S` in ascending order (the reserved `.0`/`.1` addresses are
leased by `VPNManager.setup`, exactly as in the source). -/
structure IpManager where
  hosts : List String
  leased : List String
deriving DecidableEq, Repr

/-- Modelled from the spec: `lease(ip)` marks an address as taken. -/
def IpManager.leaseIp (m : IpManager) (ip : String) : IpManager :=
  { m with leased := ip :: m.leased }

/-- Modelled from the spec: `release(ip)` returns an address to the pool. -/
def IpManager.releaseIp (m : IpManager) (ip : String) : IpManager :=
  { m with leased := m.leased.erase ip }

/-- Modelled from the spec: `allocate() → ip` hands out the lowest unleased
host address and marks it leased; `none` models `ExhaustedPool`. -/
def IpManager.getFreeIp (m : IpManager) : Option (String × IpManager) :=
  match m.hosts.find? (fun h => decide (h ∉ m.leased)) with
  | none => none
  | some ip => some (ip, m.leaseIp ip)

/-- Modelled from the spec: the Peer Table (`PeerMap`, component C2), a map
from logical peer name to peer record.  The class `PeerMap` is imported by
`VPNManager.ts` from `./PeerMap.js` but its source file is not part of the
repository snapshot.  Modelled as an association list keyed by name. -/
abbrev PeerMap := List (String × Peer)

/-- Modelled from the spec: `get(name)`. -/
def pmGet (m : PeerMap) (name : String) : Option Peer :=
  (m.find? (fun e => decide (e.1 = name))).map (fun e => e.2)

/-- Modelled from the spec: `has(name)`. -/
def pmHas (m : PeerMap) (name : String) : Bool :=
  (m.find? (fun e => decide (e.1 = name))).isSome

/-- Modelled from the spec: `delete(name)`. -/
def pmDelete (m : PeerMap) (name : String) : PeerMap :=
  m.filter (fun e => decide (e.1 ≠ name))

/-- Modelled from the spec: `add(name, peer)` (replacing any record with the
same key, as a JS `Map.set` does). -/
def pmAdd (m : PeerMap) (name : String) (p : Peer) : PeerMap :=
  (name, p) :: pmDelete m name

/-- The immutable configuration of a running `VPNManager` (fields set once by
`setup`). -/
structure VPNConfig where
  serverPublicKey : String
  ipRange : String
  vpnEndpointAnnounce : String
  serverIp : String
deriving DecidableEq, Repr

/-- The mutable part of a `VPNManager`: its peer table and its IP pool. -/
structure VPNState where
  peerMap : PeerMap
  ipm : IpManager
deriving DecidableEq, Repr

/-- `VPNManager.removeWgPeer`: release the peer's IP and delete its record;
a no-op when the name is absent. -/
def removeWgPeer (st : VPNState) (name : String) : VPNState :=
  match pmGet st.peerMap name with
  | none => st
  | some peer =>
    { peerMap := pmDelete st.peerMap name, ipm := st.ipm.releaseIp peer.ip }

/-- The allocation tail of `VPNManager.setWgPeer`: take the explicit IP when
one was supplied (leasing it), otherwise draw a fresh one from the pool, then
add the record to the peer table. -/
def setWgPeerAlloc (st : VPNState) (vpnPublicKey : String) (meta : Meta)
    (uniqueIp : Option String) : Except String (String × VPNState) :=
  match uniqueIp with
  | some ip =>
    .ok (ip, { peerMap := pmAdd st.peerMap meta.name { meta := meta, publicKey := vpnPublicKey, ip := ip },
               ipm := st.ipm.leaseIp ip })
  | none =>
    match st.ipm.getFreeIp with
    | none => .error "ExhaustedPool"
    | some (ip, ipm1) =>
      .ok (ip, { peerMap := pmAdd st.peerMap meta.name { meta := meta, publicKey := vpnPublicKey, ip := ip },
                 ipm := ipm1 })

/-- `VPNManager.setWgPeer`: idempotent when the name is present with the same
key; on a different key (key rotation) remove the old peer first, then fall
through to allocation. -/
def setWgPeer (st : VPNState) (vpnPublicKey : String) (meta : Meta)
    (uniqueIp : Option String) : Except String (String × VPNState) :=
  match pmGet st.peerMap meta.name with
  | some existingPeer =>
    if existingPeer.publicKey = vpnPublicKey then
      .ok (existingPeer.ip, st)
    else
      setWgPeerAlloc (removeWgPeer st meta.name) vpnPublicKey meta uniqueIp
  | none => setWgPeerAlloc st vpnPublicKey meta uniqueIp

/-- One peer entry of the `WGInterface` DTO returned by `registerPeer`. -/
structure WGPeerEntry where
  endpoint : String
  allowedIps : List String
  persistentKeepalive : Nat
  publicKey : String
deriving DecidableEq, Repr

/-- `wgInterface` member of the `WGInterface` DTO. -/
structure WGInterfaceAddr where
  address : List String
deriving DecidableEq, Repr

/-- `WGInterface` from `VPNManager.ts`. -/
structure WGInterface where
  peers : List WGPeerEntry
  wgInterface : WGInterfaceAddr
deriving DecidableEq, Repr

/-- The single server-side peer entry `VPNManager.registerPeer` returns. -/
def serverPeerTemplate (vc : VPNConfig) : WGPeerEntry :=
  { publicKey := vc.serverPublicKey, allowedIps := [vc.ipRange],
    endpoint := vc.vpnEndpointAnnounce, persistentKeepalive := 60 }

/-- `VPNManager.registerPeer`: run `setWgPeer` (never passing an explicit IP)
and wrap the resulting address as `<ip>/32` together with the server peer
template. -/
def VPNManager.registerPeer (vc : VPNConfig) (st : VPNState)
    (vpnPublicKey name : String) : Except String (WGInterface × VPNState) :=
  match setWgPeer st vpnPublicKey { name := name } none with
  | .error e => .error e
  | .ok (uniqueIp, st') =>
    .ok ({ wgInterface := { address := [uniqueIp ++ "/32"] },
           peers := [serverPeerTemplate vc] }, st')

/-- `VPNManager.getIpFromName`: pure read of the peer table, `null` on
absence. -/
def getIpFromName (st : VPNState) (name : String) : Option String :=
  (pmGet st.peerMap name).map (fun p => p.ip)

/-! ## Provider admission service (`ApiServer.ts`) -/

/-- The `$root$` sentinel (`ROOT_DOMAIN` in `ApiServer.ts`). -/
def ROOT_DOMAIN : String := "$root$"

/-- `verifyRecvDTO` from `dto.ts`.  A field the auth backend omitted is
modelled as `""` (both are falsy to the check the source makes). -/
structure VerifyRecvDTO where
  serverDomain : String
  domainName : String
deriving DecidableEq, Repr

/-- `registerSendDTO` from `dto.ts`. -/
structure RegisterSendDTO where
  userId : String
  vpnPublicKey : String
  authToken : String
  clientVersion : Option Nat
deriving DecidableEq, Repr

/-- `registerRecvDTO` from `dto.ts`. -/
structure RegisterRecvDTO where
  wgConfig : WGInterface
  serverIp : String
  serverDomain : String
  domainName : String
  domain : String
  routeIp : String
  routePort : Nat
deriving DecidableEq, Repr

/-- `ApiServerConfig` from `ApiServer.ts`. -/
structure ApiServerConfig where
  authApiUrl : Option String
  announcedDomain : String
deriving DecidableEq, Repr

/-- The auth-record resolution at the top of `ApiServer.registerPeer`: with an
auth URL configured the record is whatever `axios.get` returned
(`authResponse`, whose `Except.error` case is a failed request); without one
the service accepts the request with `{announcedDomain, userId || "$root$"}`. -/
def resolveAuth (acfg : ApiServerConfig) (data : RegisterSendDTO)
    (authResponse : Except String VerifyRecvDTO) : Except String VerifyRecvDTO :=
  match acfg.authApiUrl with
  | some _ => authResponse
  | none =>
    .ok { serverDomain := acfg.announcedDomain,
          domainName := if data.userId = "" then ROOT_DOMAIN else data.userId }

/-- `ApiServer.registerPeer`: resolve the auth record, throw
`Invalid Signature` when either field is missing, register the peer with the
VPN manager, and assemble the response DTO; `domain` is the bare server domain
for the `$root$` sentinel and `<domainName>.<serverDomain>` otherwise. -/
def ApiServer.registerPeer (acfg : ApiServerConfig) (vc : VPNConfig)
    (envcfg : EnvConfig) (st : VPNState) (data : RegisterSendDTO)
    (authResponse : Except String VerifyRecvDTO) :
    Except String (RegisterRecvDTO × VPNState) :=
  match resolveAuth acfg data authResponse with
  | .error e => .error e
  | .ok serverData =>
    if serverData.serverDomain = "" ∨ serverData.domainName = "" then
      .error "Invalid Signature"
    else
      match VPNManager.registerPeer vc st data.vpnPublicKey serverData.domainName with
      | .error e => .error e
      | .ok (wgconfig, st') =>
        let domain :=
          if serverData.domainName = ROOT_DOMAIN then serverData.serverDomain
          else serverData.domainName ++ "." ++ serverData.serverDomain
        .ok ({ wgConfig := wgconfig, serverIp := vc.serverIp,
               serverDomain := serverData.serverDomain,
               domainName := serverData.domainName, domain := domain,
               routeIp := envcfg.PROVIDER_ROUTE_IP,
               routePort := envcfg.PROVIDER_ROUTE_PORT }, st')

/-- Outcome of the Express `POST /api/register` handler: status code, response
DTO when successful, and the provider state afterwards.  The handler catches
every exception and answers `500 "Internal error"`. -/
structure RegisterHttpResult where
  status : Nat
  body : Option RegisterRecvDTO
  state : VPNState
deriving DecidableEq, Repr

/-- The Express `app.post('/api/register')` handler from `ApiServer.ts`. -/
def postRegisterHandler (acfg : ApiServerConfig) (vc : VPNConfig)
    (envcfg : EnvConfig) (st : VPNState) (data : RegisterSendDTO)
    (authResponse : Except String VerifyRecvDTO) : RegisterHttpResult :=
  match ApiServer.registerPeer acfg vc envcfg st data authResponse with
  | .ok (ret, st') => { status := 200, body := some ret, state := st' }
  | .error _ => { status := 500, body := none, state := st }

/-- A plain-text HTTP response of the name-resolution endpoint. -/
structure HttpResponse where
  status : Nat
  body : String
deriving DecidableEq, Repr

/-- The Express `app.get('/api/get_ip/:host')` handler from `ApiServer.ts`:
read dashes as dots, require the announced-domain suffix, drop the suffix and
one more character, take the *last* element of the remainder split on dots
(`subdomain.split('.').pop()`; the source's own comment: "takes the right most
part of the domain eg aa.bb.cc => cc"), fall back to the `$root$` peer when
that label is empty, and answer `http://<ip>:80` or `404`. -/
def getIpHandler (st : VPNState) (announcedDomain : String)
    (hostParam : String) : HttpResponse :=
  let host := replaceDashDot hostParam
  if jsEndsWith host announcedDomain then
    let subdomain := String.mk (host.data.take (host.data.length - (announcedDomain.length + 1)))
    let name := if subdomain = "" then "" else (jsSplit '.' subdomain).getLast?.getD ""
    if name = "" then
      match getIpFromName st ROOT_DOMAIN with
      | some rootIp => { status := 200, body := "http://" ++ rootIp ++ ":80" }
      | none => { status := 404, body := "Name not found" }
    else
      match getIpFromName st name with
      | some ip => { status := 200, body := "http://" ++ ip ++ ":80" }
      | none => { status := 404, body := "IP not found" }
  else
    { status := 404, body := "Invalid domain" }

/-- The 200-branch of name resolution: `"http://<ip>:80"` when the peer is
registered, `404 "IP not found"` otherwise. -/
def resolveName (st : VPNState) (name : String) : HttpResponse :=
  match getIpFromName st name with
  | some ip => { status := 200, body := "http://" ++ ip ++ ":80" }
  | none => { status := 404, body := "IP not found" }

/-- Resolution of the root peer: `"http://<ip>:80"` when `$root$` is
registered, `404 "Name not found"` otherwise. -/
def resolveRoot (st : VPNState) : HttpResponse :=
  match getIpFromName st ROOT_DOMAIN with
  | some rootIp => { status := 200, body := "http://" ++ rootIp ++ ":80" }
  | none => { status := 404, body := "Name not found" }

/-! ## Requester supervisor (`index.ts` / `ProviderTools.ts`) -/

/-- A WireGuard key pair as returned by `getOrGenerateKeyPair`. -/
structure KeyPair where
  privateKey : String
  publicKey : String
deriving DecidableEq, Repr

/-- `ProviderVersionInfo` from `ProviderTools.ts`. -/
structure ProviderVersionInfo where
  compatible : Bool
  version : Int
  error : Option String
deriving DecidableEq, Repr

/-- `checkProviderVersion` from `ProviderTools.ts`.  The argument is the
combined outcome of the `curl GET /router/api/version` exec and the
`JSON.parse` of its stdout; `Except.ok none` models a JSON body whose
`version` member is not a number. -/
def checkProviderVersion (outcome : Except String (Option Int)) : ProviderVersionInfo :=
  match outcome with
  | .error msg => { compatible := false, version := 0, error := some msg }
  | .ok none => { compatible := false, version := 0, error := some "Invalid version response" }
  | .ok (some v) => { compatible := decide (2 ≤ v), version := v, error := none }

/-- The HTTP actions `startRequester` can issue, in order of emission. -/
inductive ReqEvent where
  | pingProbe
  | versionProbe
  | registerPost (body : RegisterSendDTO)
  | routesPost (userId : String) (signature : String) (routes : List Route)
deriving DecidableEq, Repr

/-- The oracle environment of one `startRequester` run: how often the
availability probe fails before succeeding, and the outcome of each fallible
step (`Except.error` models a JS throw at that step). -/
structure StartEnv where
  pingFailures : Nat
  keyResult : Except String KeyPair
  registerResult : Except String RegisterRecvDTO
  writeConfigResult : Except String Unit
  downResult : Except String Unit
  upResult : Except String Unit
  pingExecResult : Except String String
  routeTransport : Except String BackendResponse

/-- How a `startRequester` run ends: `process.exit(code)` or normal
completion (recording whether the route refresh loop was started). -/
inductive StartOutcome where
  | exited (code : Nat)
  | completed (refreshLoopStarted : Bool)
deriving DecidableEq, Repr

/-- `startRequester` from the requester index module: the whole body sits in
one `try`; any throw from waiting, key acquisition, registration, config
persistence or interface up/down reaches the `catch`, which calls
`process.exit(51)`.  The inner ping test has its own `catch` and only logs.
`registerTunnelRoute` never throws; a `success: false` result is logged and
the function completes with the tunnel up (the refresh loop is started only
on success, and `startRouteRefreshLoop` itself refuses to start without a
configured `BACKEND_URL`).  The first component of the result is the trace of
HTTP actions issued. -/
def startRequester (cfg : EnvConfig) (providerString : String) (env : StartEnv) :
    List ReqEvent × StartOutcome :=
  let p := parseProviderString providerString
  let pingTrace := List.replicate (env.pingFailures + 1) ReqEvent.pingProbe
  match env.keyResult with
  | .error _ => (pingTrace, .exited 51)
  | .ok wgKeys =>
    let body : RegisterSendDTO :=
      { userId := p.userId, vpnPublicKey := wgKeys.publicKey,
        authToken := p.signature, clientVersion := none }
    match env.registerResult with
    | .error _ => (pingTrace ++ [ReqEvent.registerPost body], .exited 51)
    | .ok result =>
      match env.writeConfigResult with
      | .error _ => (pingTrace ++ [ReqEvent.registerPost body], .exited 51)
      | .ok _ =>
        match env.downResult with
        | .error _ => (pingTrace ++ [ReqEvent.registerPost body], .exited 51)
        | .ok _ =>
          match env.upResult with
          | .error _ => (pingTrace ++ [ReqEvent.registerPost body], .exited 51)
          | .ok _ =>
            let reg := registerTunnelRoute cfg providerString result.routePort
              result.routeIp env.routeTransport
            let routeEvents :=
              match reg.posted with
              | some req => [ReqEvent.routesPost req.userId req.signature req.routes]
              | none => []
            (pingTrace ++ [ReqEvent.registerPost body] ++ routeEvents,
             .completed (reg.result.success && decide (cfg.BACKEND_URL ≠ "")))

/-! ## Concrete fixtures used by witnesses and counterexamples -/

/-- A requester configuration with a routing backend configured. -/
def cfgBackend : EnvConfig :=
  { BACKEND_URL := "http://backend", ROUTE_PRIORITY := 2, ROUTE_REFRESH_INTERVAL := 300,
    HEALTH_CHECK_PATH := "", HEALTH_CHECK_HOST := "", PROVIDER_ROUTE_IP := "192.168.1.5",
    PROVIDER_ROUTE_PORT := 80, PROVIDER_RETRY_INTERVAL := 600 }

/-- A requester configuration without a routing backend. -/
def cfgNoBackend : EnvConfig :=
  { BACKEND_URL := "", ROUTE_PRIORITY := 2, ROUTE_REFRESH_INTERVAL := 300,
    HEALTH_CHECK_PATH := "", HEALTH_CHECK_HOST := "", PROVIDER_ROUTE_IP := "",
    PROVIDER_ROUTE_PORT := 80, PROVIDER_RETRY_INTERVAL := 600 }

/-- A backend reply that carries no `error` member. -/
def okBackendResponse : BackendResponse :=
  { error := none, message := none, routes := none, domain := none }

/-- The number of routes in the JSON body `registerTunnelRoute` POSTed, when
it POSTed one. -/
def postedRouteCount (o : TunnelRegOutcome) : Option Nat :=
  o.posted.map (fun r => r.routes.length)

/-- Provider VPN configuration on `10.0.0.0/24`. -/
def vcEx : VPNConfig :=
  { serverPublicKey := "serverPK", ipRange := "10.0.0.0/24",
    vpnEndpointAnnounce := "vpn.example.com:51820", serverIp := "10.0.0.1" }

/-- Provider state with one peer `aa → (pkA, 10.0.0.2)`; `.0` and `.1` are the
reserved leases taken by `setup`. -/
def stAA : VPNState :=
  { peerMap := [("aa", { meta := { name := "aa" }, publicKey := "pkA", ip := "10.0.0.2" })],
    ipm := { hosts := ["10.0.0.0", "10.0.0.1", "10.0.0.2", "10.0.0.3"],
             leased := ["10.0.0.0", "10.0.0.1", "10.0.0.2"] } }

/-- Provider state with one peer `aa → (pkA, 10.0.0.3)` and `10.0.0.2` free
(it was released earlier), so a rotation of `aa` lands on a different IP. -/
def stRot : VPNState :=
  { peerMap := [("aa", { meta := { name := "aa" }, publicKey := "pkA", ip := "10.0.0.3" })],
    ipm := { hosts := ["10.0.0.0", "10.0.0.1", "10.0.0.2", "10.0.0.3"],
             leased := ["10.0.0.0", "10.0.0.1", "10.0.0.3"] } }

/-- Empty provider state over `10.0.0.0/24` with the reserved leases taken. -/
def stEmpty : VPNState :=
  { peerMap := [],
    ipm := { hosts := ["10.0.0.0", "10.0.0.1", "10.0.0.2", "10.0.0.3"],
             leased := ["10.0.0.0", "10.0.0.1"] } }

/-- Admission configuration with an external auth backend. -/
def acfgAuth : ApiServerConfig := { authApiUrl := some "http://auth", announcedDomain := "example.com" }

/-- Admission configuration without an auth backend. -/
def acfgNoAuth : ApiServerConfig := { authApiUrl := none, announcedDomain := "example.com" }

/-- A registration request from user `alice`. -/
def dataAlice : RegisterSendDTO :=
  { userId := "alice", vpnPublicKey := "pkA", authToken := "sig", clientVersion := none }

/-- A provider reply to a requester registration. -/
def recvAlice : RegisterRecvDTO :=
  { wgConfig := { peers := [], wgInterface := { address := ["10.0.0.2/32"] } },
    serverIp := "10.0.0.1", serverDomain := "example.com", domainName := "alice",
    domain := "alice.example.com", routeIp := "192.168.1.5", routePort := 443 }

/-- A `startRequester` oracle environment in which every step succeeds. -/
def envAllOk : StartEnv :=
  { pingFailures := 0,
    keyResult := .ok { privateKey := "priv", publicKey := "pub" },
    registerResult := .ok recvAlice,
    writeConfigResult := .ok (), downResult := .ok (), upResult := .ok (),
    pingExecResult := .ok "pong",
    routeTransport := .ok okBackendResponse }

/-- Like `envAllOk` but the registration POST throws. -/
def envRegisterFails : StartEnv :=
  { envAllOk with registerResult := .error "connect ECONNREFUSED" }

/-- Like `envAllOk` but the tunnel-route POST to the routing backend fails. -/
def envRouteFails : StartEnv :=
  { envAllOk with routeTransport := .error "backend down" }

/-! ## Helper lemmas -/

theorem jsSplitCharList_ne_nil (sep : Char) (l : List Char) :
    jsSplitCharList sep l ≠ [] := by
  induction l with
  | nil => simp [jsSplitCharList]
  | cons c cs ih =>
    simp only [jsSplitCharList]
    by_cases h : c = sep
    · simp [h]
    · simp only [h, if_false]
      cases hr : jsSplitCharList sep cs with
      | nil => simp
      | cons r rs => simp

theorem jsSplitCharList_of_not_mem (sep : Char) (l : List Char) (h : sep ∉ l) :
    jsSplitCharList sep l = [l] := by
  induction l with
  | nil => simp [jsSplitCharList]
  | cons c cs ih =>
    have hc : c ≠ sep := fun hcs => h (hcs ▸ List.mem_cons_self c cs)
    have hcs : sep ∉ cs := fun hm => h (List.mem_cons_of_mem c hm)
    simp only [jsSplitCharList, hc, if_false, ih hcs]

theorem jsSplitCharList_append_sep (sep : Char) (l r : List Char) (h : sep ∉ l) :
    jsSplitCharList sep (l ++ sep :: r) = l :: jsSplitCharList sep r := by
  induction l with
  | nil => simp [jsSplitCharList]
  | cons c cs ih =>
    have hc : c ≠ sep := fun hcs => h (hcs ▸ List.mem_cons_self c cs)
    have hcs : sep ∉ cs := fun hm => h (List.mem_cons_of_mem c hm)
    simp only [List.cons_append, jsSplitCharList, hc, if_false]
    rw [show cs.append (sep :: r) = cs ++ sep :: r from rfl, ih hcs]

theorem jsSplit_triple (sep : Char) (b u s : String)
    (hb : sep ∉ b.data) (hu : sep ∉ u.data) (hs : sep ∉ s.data) :
    jsSplit sep (b ++ String.mk [sep] ++ u ++ String.mk [sep] ++ s) = [b, u, s] := by
  have hdata :
      (b ++ String.mk [sep] ++ u ++ String.mk [sep] ++ s).data
        = b.data ++ sep :: (u.data ++ sep :: s.data) := by
    show b.data ++ [sep] ++ u.data ++ [sep] ++ s.data
        = b.data ++ sep :: (u.data ++ sep :: s.data)
    simp
  unfold jsSplit
  rw [hdata, jsSplitCharList_append_sep sep _ _ hb,
    jsSplitCharList_append_sep sep _ _ hu, jsSplitCharList_of_not_mem sep _ hs]
  rfl

theorem jsSplit_comma_triple (b u s : String)
    (hb : ',' ∉ b.data) (hu : ',' ∉ u.data) (hs : ',' ∉ s.data) :
    jsSplit ',' (b ++ "," ++ u ++ "," ++ s) = [b, u, s] := by
  have h := jsSplit_triple ',' b u s hb hu hs
  have hcomma : (String.mk [','] : String) = "," := rfl
  rw [hcomma] at h
  exact h

/-! ## C8: `parseProvider` round-trip and failure modes -/

/-- **C8.** For all strings `b`, `u`, `s` with `b` starting with `"http"`,
`u` and `s` non-empty and none containing a comma, `parseProvider "b,u,s"`
returns exactly `{backendUrl: b, userId: u, signature: s}`; and `parseProvider`
throws on the empty string, when any of the three comma-separated fields is
missing or empty, and when the backend URL does not start with `http`. -/
theorem parseProvider_roundtrip_spec :
    (∀ b u s : String,
      jsStartsWith b "http" = true → u ≠ "" → s ≠ "" →
      ',' ∉ b.data → ',' ∉ u.data → ',' ∉ s.data →
      parseProvider (b ++ "," ++ u ++ "," ++ s)
        = .ok { backendUrl := b, userId := u, signature := s }) ∧
    parseProvider "" = .error "PROVIDER environment variable is required" ∧
    (∀ ps : String,
      ((jsSplit ',' ps).getD 0 "" = "" ∨ (jsSplit ',' ps).getD 1 "" = "" ∨
       (jsSplit ',' ps).getD 2 "" = "") →
      parseProvider ps
        = .error "PROVIDER environment variable is required" ∨
      parseProvider ps
        = .error "Invalid PROVIDER format. Expected: <backend_url>,<userid>,<signature>") ∧
    (∀ ps : String,
      jsStartsWith ((jsSplit ',' ps).getD 0 "") "http" = false →
      ∃ e, parseProvider ps = .error e) := by
  refine ⟨?_, by decide, ?_, ?_⟩
  · intro b u s hhttp hu hs hcb hcu hcs
    have hsplit := jsSplit_comma_triple b u s hcb hcu hcs
    have hbne : b ≠ "" := by
      intro h; subst h; simp [jsStartsWith] at hhttp
    have hne : b ++ "," ++ u ++ "," ++ s ≠ "" := by
      intro h
      have hd : (b ++ "," ++ u ++ "," ++ s).data
          = b.data ++ [','] ++ u.data ++ [','] ++ s.data := rfl
      rw [h] at hd
      simp at hd
    simp [parseProvider, hne, hsplit, hbne, hu, hs, hhttp]
  · intro ps hempty
    by_cases hps : ps = ""
    · exact Or.inl (by rw [hps]; decide)
    · rcases hempty with h | h | h <;> rw [List.getD_eq_getElem?_getD] at h <;>
        exact Or.inr (by simp [parseProvider, hps, h])
  · intro ps hsw
    by_cases hps : ps = ""
    · exact ⟨"PROVIDER environment variable is required", by rw [hps]; decide⟩
    · by_cases hempty : ((jsSplit ',' ps).getD 0 "" = "" ∨ (jsSplit ',' ps).getD 1 "" = "" ∨
        (jsSplit ',' ps).getD 2 "" = "")
      · refine ⟨"Invalid PROVIDER format. Expected: <backend_url>,<userid>,<signature>", ?_⟩
        rcases hempty with h | h | h <;> rw [List.getD_eq_getElem?_getD] at h <;>
          simp [parseProvider, hps, h]
      · push_neg at hempty
        obtain ⟨h0, h1, h2⟩ := hempty
        rw [List.getD_eq_getElem?_getD] at h0 h1 h2 hsw
        refine ⟨"PROVIDER backend_url must start with http:// or https://", ?_⟩
        simp [parseProvider, hps, h0, h1, h2, hsw]

/-- Witness for C8 at concrete inputs. -/
theorem parseProvider_roundtrip_spec_witness :
    parseProvider ("http://x" ++ "," ++ "alice" ++ "," ++ "sig")
      = .ok { backendUrl := "http://x", userId := "alice", signature := "sig" } ∧
    (∃ e, parseProvider "ftp://x,a,b" = .error e) :=
  ⟨parseProvider_roundtrip_spec.1 "http://x" "alice" "sig" (by decide) (by decide)
      (by decide) (by decide) (by decide) (by decide),
   parseProvider_roundtrip_spec.2.2.2 "ftp://x,a,b" (by decide)⟩

/-! ## C10: `registerTunnelRoute` never throws -/

/-- **C10.** `registerTunnelRoute` never throws: with no backend URL it
returns `{success: true}` without contacting the backend; with a backend URL
but a provider string lacking a userId or signature it returns
`{success: false}` with an error, still without contacting the backend; and a
transport (curl) or JSON-parse failure is returned as `{success: false}` with
the error message rather than propagated. -/
theorem registerTunnelRoute_never_throws (cfg : EnvConfig) (ps : String)
    (port : Nat) (ip : String) (tr : Except String BackendResponse) :
    (cfg.BACKEND_URL = "" →
      registerTunnelRoute cfg ps port ip tr
        = { result := { success := true,
                        message := "Route registration skipped (no BACKEND_URL)",
                        routes := none, domain := none, error := none },
            posted := none }) ∧
    (cfg.BACKEND_URL ≠ "" →
      ((parseProviderString ps).userId = "" ∨ (parseProviderString ps).signature = "") →
      registerTunnelRoute cfg ps port ip tr
        = { result := { success := false,
                        message := "Route registration failed",
                        routes := none, domain := none,
                        error := some "Missing userId or signature in provider string" },
            posted := none }) ∧
    (∀ msg, cfg.BACKEND_URL ≠ "" →
      (parseProviderString ps).userId ≠ "" → (parseProviderString ps).signature ≠ "" →
      tr = .error msg →
      (registerTunnelRoute cfg ps port ip tr).result
        = { success := false, message := "Route registration request failed",
            routes := none, domain := none, error := some msg }) := by
  refine ⟨?_, ?_, ?_⟩
  · intro h
    simp [registerTunnelRoute, h]
  · intro h hmiss
    simp [registerTunnelRoute, h, hmiss]
  · intro msg h hu hs htr
    subst htr
    simp [registerTunnelRoute, h, hu, hs]

/-- Witness for C10: the three branches at concrete inputs. -/
theorem registerTunnelRoute_never_throws_witness :
    registerTunnelRoute cfgNoBackend "http://p,alice,sig" 443 "192.168.1.5" (.ok okBackendResponse)
      = { result := { success := true,
                      message := "Route registration skipped (no BACKEND_URL)",
                      routes := none, domain := none, error := none },
          posted := none } ∧
    registerTunnelRoute cfgBackend "http://p" 443 "192.168.1.5" (.ok okBackendResponse)
      = { result := { success := false,
                      message := "Route registration failed",
                      routes := none, domain := none,
                      error := some "Missing userId or signature in provider string" },
          posted := none } ∧
    (registerTunnelRoute cfgBackend "http://p,alice,sig" 443 "192.168.1.5"
        (.error "curl: (7) connection refused")).result
      = { success := false, message := "Route registration request failed",
          routes := none, domain := none, error := some "curl: (7) connection refused" } :=
  ⟨(registerTunnelRoute_never_throws cfgNoBackend "http://p,alice,sig" 443 "192.168.1.5"
      (.ok okBackendResponse)).1 rfl,
   (registerTunnelRoute_never_throws cfgBackend "http://p" 443 "192.168.1.5"
      (.ok okBackendResponse)).2.1 (by decide) (by decide),
   (registerTunnelRoute_never_throws cfgBackend "http://p,alice,sig" 443 "192.168.1.5"
      (.error "curl: (7) connection refused")).2.2 "curl: (7) connection refused"
      (by decide) (by decide) (by decide) rfl⟩

/-! ## C1: the JSON body POSTed to the routing backend -/

/-- **C1 counterexample.** With a configured backend and a provider string
carrying a userId and signature, the body POSTed for route port 443 and route
ip 192.168.1.5 contains exactly ONE route, `{ip, port: 443, priority: 2}`,
with no scheme and no source member — not the two dual-scheme routes the
claim asserts. -/
theorem registerTunnelRoute_dual_scheme_counterexample :
    (registerTunnelRoute cfgBackend "http://p,alice,sig" 443 "192.168.1.5"
        (.ok okBackendResponse)).posted
      = some { backendUrl := "http://backend", userId := "alice", signature := "sig",
               routes := [{ ip := "192.168.1.5", port := 443, priority := 2,
                            healthCheck := none }] } ∧
    postedRouteCount (registerTunnelRoute cfgBackend "http://p,alice,sig" 443 "192.168.1.5"
        (.ok okBackendResponse)) = some 1 ∧
    postedRouteCount (registerTunnelRoute cfgBackend "http://p,alice,sig" 443 "192.168.1.5"
        (.ok okBackendResponse)) ≠ some 2 := by
  decide

/-- **C1 amended.** For every call to `registerTunnelRoute` with a configured
backend URL and a provider string carrying a userId and signature, given a
route port and a route ip, the JSON body POSTed to
`<backendUrl>/router/api/routes/{userId}/{signature}` contains exactly one
route, with the given ip, the given port and the configured priority (plus
the configured health check, when one is set); routes carry no scheme and no
source field. -/
theorem registerTunnelRoute_single_route (cfg : EnvConfig) (ps : String)
    (port : Nat) (ip : String) (tr : Except String BackendResponse)
    (hb : cfg.BACKEND_URL ≠ "")
    (hu : (parseProviderString ps).userId ≠ "")
    (hs : (parseProviderString ps).signature ≠ "") :
    (registerTunnelRoute cfg ps port ip tr).posted
      = some { backendUrl := cfg.BACKEND_URL,
               userId := (parseProviderString ps).userId,
               signature := (parseProviderString ps).signature,
               routes := [{ ip := ip, port := port, priority := cfg.ROUTE_PRIORITY,
                            healthCheck := getHealthCheckConfig cfg }] } := by
  cases tr with
  | error msg => simp [registerTunnelRoute, hb, hu, hs]
  | ok response =>
    cases hre : response.error with
    | none => simp [registerTunnelRoute, hb, hu, hs, hre]
    | some e => simp [registerTunnelRoute, hb, hu, hs, hre]

/-- Witness for C1 (amended) at concrete inputs. -/
theorem registerTunnelRoute_single_route_witness :
    (registerTunnelRoute cfgBackend "http://p,alice,sig" 443 "192.168.1.5"
        (.ok okBackendResponse)).posted
      = some { backendUrl := "http://backend", userId := "alice", signature := "sig",
               routes := [{ ip := "192.168.1.5", port := 443, priority := 2,
                            healthCheck := none }] } :=
  registerTunnelRoute_single_route cfgBackend "http://p,alice,sig" 443 "192.168.1.5"
    (.ok okBackendResponse) (by decide) (by decide) (by decide)

/-! ## C2: admission response status on an incomplete auth record -/

/-- The response of the `POST /api/register` handler when the auth backend
returns a record lacking `serverDomain`. -/
def c2Response : RegisterHttpResult :=
  postRegisterHandler acfgAuth vcEx cfgBackend stEmpty dataAlice
    (.ok { serverDomain := "", domainName := "alice" })

/-- **C2 counterexample.** When the resolved auth record lacks
`serverDomain`, the Admission service answers `500 "Internal error"` — a 5xx,
not the 4xx Unauthorized status the claim asserts (the `Invalid Signature`
throw is caught by the generic handler). -/
theorem register_missing_field_status_counterexample :
    c2Response.status = 500 ∧ ¬ (400 ≤ c2Response.status ∧ c2Response.status < 500) := by
  decide

/-- **C2 amended.** For every `POST /api/register` request for which the
resolved auth record lacks `serverDomain` or lacks `domainName`, the
Admission service responds with status 500 ("Internal error"), leaving the
peer state untouched — a 5xx, not a 4xx. -/
theorem register_missing_field_responds_500 (acfg : ApiServerConfig)
    (vc : VPNConfig) (envcfg : EnvConfig) (st : VPNState)
    (data : RegisterSendDTO) (ar : Except String VerifyRecvDTO)
    (sd : VerifyRecvDTO)
    (hres : resolveAuth acfg data ar = .ok sd)
    (hmiss : sd.serverDomain = "" ∨ sd.domainName = "") :
    postRegisterHandler acfg vc envcfg st data ar
      = { status := 500, body := none, state := st } := by
  rcases hmiss with hm | hm <;>
    simp [postRegisterHandler, ApiServer.registerPeer, hres, hm]

/-- Witness for C2 (amended) at a concrete input. -/
theorem register_missing_field_responds_500_witness :
    c2Response = { status := 500, body := none, state := stEmpty } :=
  register_missing_field_responds_500 acfgAuth vcEx cfgBackend stEmpty dataAlice
    (.ok { serverDomain := "", domainName := "alice" })
    { serverDomain := "", domainName := "alice" } rfl (Or.inl rfl)

/-! ## C7: the domain returned by a successful registration -/

/-- **C7.** For every successful registration, the returned `domain` equals
`serverDomain` when the resolved `domainName` is the `$root$` sentinel, and
`<domainName>.<serverDomain>` otherwise; the sentinel is substituted when no
auth URL is configured and the request's userId is empty. -/
theorem registerPeer_domain_spec (acfg : ApiServerConfig) (vc : VPNConfig)
    (envcfg : EnvConfig) (st : VPNState) (data : RegisterSendDTO)
    (ar : Except String VerifyRecvDTO) (ret : RegisterRecvDTO) (st' : VPNState)
    (h : ApiServer.registerPeer acfg vc envcfg st data ar = .ok (ret, st')) :
    (ret.domainName = ROOT_DOMAIN → ret.domain = ret.serverDomain) ∧
    (ret.domainName ≠ ROOT_DOMAIN →
      ret.domain = ret.domainName ++ "." ++ ret.serverDomain) ∧
    (acfg.authApiUrl = none → data.userId = "" → ret.domainName = ROOT_DOMAIN) := by
  unfold ApiServer.registerPeer at h
  split at h
  · cases h
  · split at h
    · cases h
    · split at h
      · cases h
      · rename_i x1 sd hres hmiss x2 wg st2 hreg
        simp only [Except.ok.injEq, Prod.mk.injEq] at h
        obtain ⟨hret, hst⟩ := h
        subst hret
        refine ⟨?_, ?_, ?_⟩
        · intro hroot
          simp only at hroot ⊢
          simp [hroot]
        · intro hroot
          simp only at hroot ⊢
          simp [hroot]
        · intro hnone huid
          obtain ⟨sds, sdd⟩ := sd
          simp [resolveAuth, hnone, huid] at hres
          simp [hres.2]

/-- The response produced when `alice` registers at a provider with no auth
backend configured (used as the C7 witness input). -/
def ret7 : RegisterRecvDTO :=
  { wgConfig := { peers := [serverPeerTemplate vcEx],
                  wgInterface := { address := ["10.0.0.2/32"] } },
    serverIp := "10.0.0.1", serverDomain := "example.com", domainName := "alice",
    domain := "alice.example.com", routeIp := "192.168.1.5", routePort := 80 }

/-- The provider state after `alice` registered in `stEmpty`. -/
def st7 : VPNState :=
  { peerMap := [("alice", { meta := { name := "alice" }, publicKey := "pkA", ip := "10.0.0.2" })],
    ipm := { hosts := ["10.0.0.0", "10.0.0.1", "10.0.0.2", "10.0.0.3"],
             leased := ["10.0.0.2", "10.0.0.0", "10.0.0.1"] } }

/-- Witness for C7 at a concrete successful registration. -/
theorem registerPeer_domain_spec_witness :
    (ret7.domainName = ROOT_DOMAIN → ret7.domain = ret7.serverDomain) ∧
    (ret7.domainName ≠ ROOT_DOMAIN →
      ret7.domain = ret7.domainName ++ "." ++ ret7.serverDomain) ∧
    (acfgNoAuth.authApiUrl = none → dataAlice.userId = "" →
      ret7.domainName = ROOT_DOMAIN) :=
  registerPeer_domain_spec acfgNoAuth vcEx cfgBackend stEmpty dataAlice
    (.ok { serverDomain := "", domainName := "" }) ret7 st7 (by decide)

/-! ## C4: idempotent re-registration with an unchanged key -/

/-- **C4.** When `name` is registered with public key `pk` and address `ip`,
`registerPeer(pk, name)` is idempotent: it returns a configuration whose
interface address is the same `ip/32`, and the state — peer table and IP
pool — is returned unchanged (no new lease). -/
theorem registerPeer_idempotent (vc : VPNConfig) (st : VPNState)
    (pk name : String) (peer : Peer)
    (hmem : pmGet st.peerMap name = some peer) (hpk : peer.publicKey = pk) :
    VPNManager.registerPeer vc st pk name
      = .ok ({ wgInterface := { address := [peer.ip ++ "/32"] },
               peers := [serverPeerTemplate vc] }, st) := by
  simp [VPNManager.registerPeer, setWgPeer, hmem, hpk]

/-- Witness for C4: re-registering `aa` with its current key returns
`10.0.0.2/32` and leaves the state exactly as it was. -/
theorem registerPeer_idempotent_witness :
    VPNManager.registerPeer vcEx stAA "pkA" "aa"
      = .ok ({ wgInterface := { address := ["10.0.0.2/32"] },
               peers := [serverPeerTemplate vcEx] }, stAA) :=
  registerPeer_idempotent vcEx stAA "pkA" "aa"
    { meta := { name := "aa" }, publicKey := "pkA", ip := "10.0.0.2" }
    (by decide) (by decide)

/-! ## C5: key rotation releases the old IP before allocating a new one -/

/-- **C5.** When `name` is registered with key `pk_old ≠ pk'` at `ip_old`,
`registerPeer(pk', name)` first releases `ip_old` and deletes the record,
then allocates from the *released* pool (so `ip_new` is drawn with `ip_old`
already free) and installs the new record, returning `ip_new/32`; in the
resulting pool `ip_old` is leased only if it happens to be `ip_new` itself —
it is never left leased alongside a distinct `ip_new`. -/
theorem registerPeer_key_rotation (vc : VPNConfig) (st : VPNState)
    (pk' name : String) (peerOld : Peer) (ipNew : String)
    (hmem : pmGet st.peerMap name = some peerOld)
    (hpk : peerOld.publicKey ≠ pk')
    (hfree : st.ipm.hosts.find?
      (fun h => decide (h ∉ st.ipm.leased.erase peerOld.ip)) = some ipNew)
    (hnd : st.ipm.leased.Nodup) :
    VPNManager.registerPeer vc st pk' name
      = .ok ({ wgInterface := { address := [ipNew ++ "/32"] },
               peers := [serverPeerTemplate vc] },
             { peerMap := pmAdd (pmDelete st.peerMap name) name
                 { meta := { name := name }, publicKey := pk', ip := ipNew },
               ipm := { hosts := st.ipm.hosts,
                        leased := ipNew :: st.ipm.leased.erase peerOld.ip } })
    ∧ ipNew ∉ st.ipm.leased.erase peerOld.ip
    ∧ (peerOld.ip ≠ ipNew →
        peerOld.ip ∉ (ipNew :: st.ipm.leased.erase peerOld.ip)) := by
  have hnew : ipNew ∉ st.ipm.leased.erase peerOld.ip := by
    have hfind := List.find?_some hfree
    simpa using hfind
  refine ⟨?_, hnew, ?_⟩
  · have hfree' : List.find?
        (fun h => !decide (h ∈ st.ipm.leased.erase peerOld.ip)) st.ipm.hosts = some ipNew := by
      simpa using hfree
    simp [VPNManager.registerPeer, setWgPeer, hmem, hpk, removeWgPeer,
      setWgPeerAlloc, IpManager.getFreeIp, IpManager.releaseIp, hfree',
      IpManager.leaseIp]
  · intro hne hmem2
    rcases List.mem_cons.mp hmem2 with h | h
    · exact hne h
    · exact hnd.not_mem_erase h

/-- Witness for C5: rotating `aa` from `pkA` (at `10.0.0.3`) to `pkB` in
`stRot` releases `10.0.0.3` and allocates `10.0.0.2`, leaving the old IP
unleased. -/
theorem registerPeer_key_rotation_witness :
    VPNManager.registerPeer vcEx stRot "pkB" "aa"
      = .ok ({ wgInterface := { address := ["10.0.0.2/32"] },
               peers := [serverPeerTemplate vcEx] },
             { peerMap := pmAdd (pmDelete stRot.peerMap "aa") "aa"
                 { meta := { name := "aa" }, publicKey := "pkB", ip := "10.0.0.2" },
               ipm := { hosts := stRot.ipm.hosts,
                        leased := "10.0.0.2" :: stRot.ipm.leased.erase "10.0.0.3" } })
    ∧ "10.0.0.2" ∉ stRot.ipm.leased.erase "10.0.0.3"
    ∧ ("10.0.0.3" ≠ "10.0.0.2" →
        "10.0.0.3" ∉ ("10.0.0.2" :: stRot.ipm.leased.erase "10.0.0.3")) :=
  registerPeer_key_rotation vcEx stRot "pkB" "aa"
    { meta := { name := "aa" }, publicKey := "pkA", ip := "10.0.0.3" }
    "10.0.0.2" (by decide) (by decide) (by decide) (by decide)

/-! ## C6: which label of the host names the peer -/

/-- **C6 counterexample.** With peer `aa` registered at `10.0.0.2` (and no
peer `bb`), `GET /api/get_ip/aa-bb-example-com` answers `404` — the handler
resolves the *right-most* label of the remainder (`bb`), not the left-most
(`aa`) as the claim asserts, so the registered peer is not found. -/
theorem getIpHandler_leftmost_counterexample :
    getIpFromName stAA "aa" = some "10.0.0.2" ∧
    getIpFromName stAA "bb" = none ∧
    getIpHandler stAA "example.com" "aa-bb-example-com"
      = { status := 404, body := "IP not found" } ∧
    getIpHandler stAA "example.com" "aa-bb-example-com"
      ≠ { status := 200, body := "http://10.0.0.2:80" } := by
  decide

/-- **C6 amended.** For every `GET /api/get_ip/{host}` request, with dashes
read as dots: if the host does not end with the announced domain the response
is 404; if the host is `<sub>.<domain>` the service interprets the
*right-most* label of `sub` (the label adjacent to the announced domain) as
the peer name, an empty label denoting the root peer `$root$`; if the host
equals the announced domain the root peer is meant.  It returns
`200 "http://<peer-ip>:80"` when that peer is registered and 404 otherwise. -/
theorem getIpHandler_rightmost_label (st : VPNState) (dom hostParam sub : String) :
    (replaceDashDot hostParam = sub ++ "." ++ dom →
      getIpHandler st dom hostParam
        = (if (jsSplit '.' sub).getLast?.getD "" = "" then resolveRoot st
           else resolveName st ((jsSplit '.' sub).getLast?.getD ""))) ∧
    (replaceDashDot hostParam = dom → getIpHandler st dom hostParam = resolveRoot st) ∧
    (jsEndsWith (replaceDashDot hostParam) dom = false →
      getIpHandler st dom hostParam = { status := 404, body := "Invalid domain" }) := by
  refine ⟨?_, ?_, ?_⟩
  · intro h
    have hdata : (sub ++ "." ++ dom).data = sub.data ++ ('.' :: dom.data) := by
      show sub.data ++ ['.'] ++ dom.data = sub.data ++ ('.' :: dom.data)
      simp
    have hend : jsEndsWith (sub ++ "." ++ dom) dom = true := by
      unfold jsEndsWith
      rw [hdata]
      exact List.isSuffixOf_iff_suffix.mpr ⟨sub.data ++ ['.'], by simp⟩
    have htake : List.take ((sub ++ "." ++ dom).data.length - (dom.length + 1))
        (sub ++ "." ++ dom).data = sub.data := by
      rw [hdata]
      have hlen : (sub.data ++ ('.' :: dom.data)).length - (dom.length + 1)
          = sub.data.length := by
        rw [List.length_append, List.length_cons]
        have hd : dom.length = dom.data.length := rfl
        omega
      rw [hlen]
      exact List.take_left sub.data ('.' :: dom.data)
    unfold getIpHandler
    rw [h]
    simp only [hend, if_true]
    rw [htake]
    have hmk : (⟨sub.data⟩ : String) = sub := rfl
    rw [hmk]
    by_cases hsub : sub = ""
    · subst hsub
      rw [if_pos (show (jsSplit '.' "").getLast?.getD "" = "" from by decide)]
      simp [resolveRoot]
    · simp only [hsub, if_false]
      by_cases hname : (jsSplit '.' sub).getLast?.getD "" = ""
      · simp [hname, resolveRoot]
      · simp [hname, resolveName]
  · intro h
    have hend : jsEndsWith dom dom = true :=
      List.isSuffixOf_iff_suffix.mpr (List.suffix_refl _)
    have htake : List.take (dom.data.length - (dom.length + 1)) dom.data = [] := by
      have hz : dom.data.length - (dom.length + 1) = 0 := by
        have hd : dom.length = dom.data.length := rfl
        omega
      simp [hz]
    unfold getIpHandler
    rw [h]
    simp only [hend, if_true]
    rw [htake]
    simp [resolveRoot]
  · intro h
    simp [getIpHandler, h]

/-- Witness for C6 (amended) on concrete hosts: the sub-domain label adjacent
to the announced domain is the one resolved, the bare announced domain maps
to the root peer, and a foreign domain is rejected. -/
theorem getIpHandler_rightmost_label_witness :
    getIpHandler stAA "example.com" "aa-bb-example-com"
      = { status := 404, body := "IP not found" } ∧
    getIpHandler stAA "example.com" "example-com"
      = { status := 404, body := "Name not found" } ∧
    getIpHandler stAA "example.com" "foo-other-com"
      = { status := 404, body := "Invalid domain" } :=
  ⟨(getIpHandler_rightmost_label stAA "example.com" "aa-bb-example-com" "aa.bb").1
      (by decide),
   (getIpHandler_rightmost_label stAA "example.com" "example-com" "").2.1
      (by decide),
   (getIpHandler_rightmost_label stAA "example.com" "foo-other-com" "").2.2
      (by decide)⟩

/-! ## C3: no version probe, no clientVersion in the register body -/

/-- The register body `startRequester` builds for provider string
`"http://p,alice,sig"` with public key `pub`. -/
def regBodyAlice : RegisterSendDTO :=
  { userId := "alice", vpnPublicKey := "pub", authToken := "sig", clientVersion := none }

/-- **C3 counterexample.** In a fully successful run, the trace of
`startRequester` is availability probe, register POST, route POST: it contains
no `GET /router/api/version` probe, and the register body carries no
`clientVersion` — contradicting the claim that the version endpoint is probed
first and that `clientVersion: 2` is sent. -/
theorem startRequester_version_counterexample :
    (startRequester cfgBackend "http://p,alice,sig" envAllOk).1
      = [ReqEvent.pingProbe,
         ReqEvent.registerPost regBodyAlice,
         ReqEvent.routesPost "alice" "sig"
           [{ ip := "192.168.1.5", port := 443, priority := 2, healthCheck := none }]] ∧
    ReqEvent.versionProbe ∉ (startRequester cfgBackend "http://p,alice,sig" envAllOk).1 ∧
    ReqEvent.registerPost { regBodyAlice with clientVersion := some 2 }
      ∉ (startRequester cfgBackend "http://p,alice,sig" envAllOk).1 := by
  decide

/-- **C3 amended.** `startRequester` never issues a `GET /router/api/version`
probe; every register POST it issues carries `{userId, vpnPublicKey,
authToken}` from the provider string and key pair with *no* `clientVersion`
member.  The standalone helper `checkProviderVersion` (not invoked from
`startRequester`) reports `compatible` exactly when the reported version is
at least 2. -/
theorem startRequester_no_version_probe (cfg : EnvConfig) (ps : String) (env : StartEnv) :
    ReqEvent.versionProbe ∉ (startRequester cfg ps env).1 ∧
    (∀ body : RegisterSendDTO,
      ReqEvent.registerPost body ∈ (startRequester cfg ps env).1 →
      body.clientVersion = none ∧ body.userId = (parseProviderString ps).userId ∧
      body.authToken = (parseProviderString ps).signature) ∧
    (∀ outcome : Except String (Option Int),
      (checkProviderVersion outcome).compatible = true ↔
        ∃ v, outcome = .ok (some v) ∧ 2 ≤ v) := by
  refine ⟨?_, ?_, ?_⟩
  · rcases hk : env.keyResult with ek | k
    · simp [startRequester, hk, List.mem_replicate]
    · rcases hr : env.registerResult with er | r
      · simp [startRequester, hk, hr, List.mem_append, List.mem_replicate]
      · rcases hw : env.writeConfigResult with ew | w
        · simp [startRequester, hk, hr, hw, List.mem_append, List.mem_replicate]
        · rcases hd : env.downResult with ed | d
          · simp [startRequester, hk, hr, hw, hd, List.mem_append, List.mem_replicate]
          · rcases hu : env.upResult with eu | u
            · simp [startRequester, hk, hr, hw, hd, hu, List.mem_append, List.mem_replicate]
            · rcases hp : (registerTunnelRoute cfg ps r.routePort r.routeIp
                  env.routeTransport).posted with _ | req
              · simp [startRequester, hk, hr, hw, hd, hu, hp, List.mem_append,
                  List.mem_replicate]
              · simp [startRequester, hk, hr, hw, hd, hu, hp, List.mem_append,
                  List.mem_replicate]
  · intro body hmem
    rcases hk : env.keyResult with ek | k
    · simp [startRequester, hk, List.mem_replicate] at hmem
    · rcases hr : env.registerResult with er | r
      · simp [startRequester, hk, hr, List.mem_append, List.mem_replicate] at hmem
        simp [hmem]
      · rcases hw : env.writeConfigResult with ew | w
        · simp [startRequester, hk, hr, hw, List.mem_append, List.mem_replicate] at hmem
          simp [hmem]
        · rcases hd : env.downResult with ed | d
          · simp [startRequester, hk, hr, hw, hd, List.mem_append, List.mem_replicate] at hmem
            simp [hmem]
          · rcases hu : env.upResult with eu | u
            · simp [startRequester, hk, hr, hw, hd, hu, List.mem_append,
                List.mem_replicate] at hmem
              simp [hmem]
            · rcases hp : (registerTunnelRoute cfg ps r.routePort r.routeIp
                  env.routeTransport).posted with _ | req
              · simp [startRequester, hk, hr, hw, hd, hu, hp, List.mem_append,
                  List.mem_replicate] at hmem
                simp [hmem]
              · simp [startRequester, hk, hr, hw, hd, hu, hp, List.mem_append,
                  List.mem_replicate] at hmem
                simp [hmem]
  · intro outcome
    rcases outcome with msg | v
    · simp [checkProviderVersion]
    · rcases v with _ | n
      · simp [checkProviderVersion]
      · simp [checkProviderVersion]

/-- Witness for C3 (amended) at a concrete run. -/
theorem startRequester_no_version_probe_witness :
    ReqEvent.versionProbe ∉ (startRequester cfgBackend "http://p,alice,sig" envAllOk).1 ∧
    (regBodyAlice.clientVersion = none ∧
     regBodyAlice.userId = (parseProviderString "http://p,alice,sig").userId ∧
     regBodyAlice.authToken = (parseProviderString "http://p,alice,sig").signature) ∧
    (checkProviderVersion (.ok (some 2))).compatible = true :=
  ⟨(startRequester_no_version_probe cfgBackend "http://p,alice,sig" envAllOk).1,
   (startRequester_no_version_probe cfgBackend "http://p,alice,sig" envAllOk).2.1
      regBodyAlice (by decide),
   ((startRequester_no_version_probe cfgBackend "http://p,alice,sig" envAllOk).2.2
      (.ok (some 2))).mpr ⟨2, rfl, by decide⟩⟩

/-! ## C9: exit code 51 on unhandled failure, no exit on route failure -/

/-- **C9.** Any throw from key acquisition, registration, config persistence
or interface down/up inside `startRequester` makes the process exit with
code 51; when those steps succeed the run completes — in particular a
tunnel-route registration returning `success: false` is logged and the run
completes (with no refresh loop) rather than terminating the process. -/
theorem startRequester_exit_code_spec (cfg : EnvConfig) (ps : String) (env : StartEnv) :
    (((∃ e, env.keyResult = .error e) ∨ (∃ e, env.registerResult = .error e) ∨
      (∃ e, env.writeConfigResult = .error e) ∨ (∃ e, env.downResult = .error e) ∨
      (∃ e, env.upResult = .error e)) →
      (startRequester cfg ps env).2 = .exited 51) ∧
    (∀ k r, env.keyResult = .ok k → env.registerResult = .ok r →
      env.writeConfigResult = .ok () → env.downResult = .ok () → env.upResult = .ok () →
      (startRequester cfg ps env).2
        = .completed
            ((registerTunnelRoute cfg ps r.routePort r.routeIp env.routeTransport).result.success
              && decide (cfg.BACKEND_URL ≠ "")) ∧
      (startRequester cfg ps env).2 ≠ .exited 51) ∧
    (∀ k r, env.keyResult = .ok k → env.registerResult = .ok r →
      env.writeConfigResult = .ok () → env.downResult = .ok () → env.upResult = .ok () →
      (registerTunnelRoute cfg ps r.routePort r.routeIp env.routeTransport).result.success
        = false →
      (startRequester cfg ps env).2 = .completed false) := by
  refine ⟨?_, ?_, ?_⟩
  · intro hfail
    rcases hk : env.keyResult with ek | k
    · simp [startRequester, hk]
    · rcases hr : env.registerResult with er | r
      · simp [startRequester, hk, hr]
      · rcases hw : env.writeConfigResult with ew | w
        · simp [startRequester, hk, hr, hw]
        · rcases hd : env.downResult with ed | d
          · simp [startRequester, hk, hr, hw, hd]
          · rcases hu : env.upResult with eu | u
            · simp [startRequester, hk, hr, hw, hd, hu]
            · exfalso
              rcases hfail with ⟨e, he⟩ | ⟨e, he⟩ | ⟨e, he⟩ | ⟨e, he⟩ | ⟨e, he⟩ <;>
                simp_all
  · intro k r hk hr hw hd hu
    constructor
    · simp [startRequester, hk, hr, hw, hd, hu]
    · simp [startRequester, hk, hr, hw, hd, hu]
  · intro k r hk hr hw hd hu hfail
    simp [startRequester, hk, hr, hw, hd, hu, hfail]

/-- Witness for C9: a failing register POST exits with 51; a failing route
registration completes without exiting. -/
theorem startRequester_exit_code_spec_witness :
    (startRequester cfgBackend "http://p,alice,sig" envRegisterFails).2 = .exited 51 ∧
    (startRequester cfgBackend "http://p,alice,sig" envRouteFails).2 = .completed false :=
  ⟨(startRequester_exit_code_spec cfgBackend "http://p,alice,sig" envRegisterFails).1
      (Or.inr (Or.inl ⟨"connect ECONNREFUSED", rfl⟩)),
   (startRequester_exit_code_spec cfgBackend "http://p,alice,sig" envRouteFails).2.2
      { privateKey := "priv", publicKey := "pub" } recvAlice rfl rfl rfl rfl rfl (by decide)⟩
